import Mathlib

/-!
Verification of the emilbot matrix client (src/main.ts) against its
natural-language specification.

The file shallowly embeds the parts of src/main.ts that the claims are
about: the room-list sort (getRoomList), the credential/session start
path (start / getTokenLogin and the localStorage calls), the timeline
event handler and the scrollback dispatch, the top-level verification
flow, and the room lookup by name.  External library operations
(localStorage, the matrix SDK) are modelled by the contract the code
relies on: localStorage is a key/value map, decryptEventIfNeeded
decrypts an encrypted event, Array.prototype.sort is a stable sort
(required by ES2019) driven by the given comparator.
-/

namespace Emilbot

/-- Event types distinguished by the code: m.room.message
(EventType.RoomMessage), m.room.encrypted (EventType.RoomMessageEncrypted),
and everything else. -/
inductive MEventType where
  | roomMessage
  | roomMessageEncrypted
  | other (name : String)
deriving DecidableEq

/-- A matrix timeline event as src/main.ts uses it: identity, origin
timestamp (getTs), type (getType), the raw wire content, the plaintext
content, and whether decryption has already happened.  getContent()
returns the plaintext once an encrypted event is decrypted, and the raw
wire content before that. -/
structure MEvent where
  eventId : String
  ts : Nat
  type : MEventType
  wireContent : String
  clearContent : String
  decrypted : Bool
deriving DecidableEq

/-- Model of event.getContent(): for an encrypted event that has not been
decrypted this is the ciphertext payload; otherwise the clear content. -/
def MEvent.getContent (e : MEvent) : String :=
  if e.type = .roomMessageEncrypted ∧ ¬ e.decrypted then e.wireContent else e.clearContent

/-- Model of client.decryptEventIfNeeded(event): decrypts an encrypted
event (idempotently — the SDK memoizes the plaintext), leaves any other
event unchanged. -/
def decryptEventIfNeeded (e : MEvent) : MEvent :=
  if e.type = .roomMessageEncrypted then { e with decrypted := true } else e

/-- A room as the code uses it: identifier, human-readable name, and the
live timeline's events (room.getLiveTimeline().getEvents()), oldest
first. -/
structure MRoom where
  roomId : String
  name : String
  events : List MEvent
deriving DecidableEq

/-- The comparator passed to rooms.sort in getRoomList
(src/main.ts lines 128-149): aEvents[aEvents.length - 1] is the last
element of the live timeline (null when the room has no events). -/
def roomCompare (a b : MRoom) : Int :=
  match a.events.getLast? with
  | none => -1
  | some aMsg =>
    match b.events.getLast? with
    | none => 1
    | some bMsg =>
      if aMsg.ts = bMsg.ts then 0
      else if aMsg.ts > bMsg.ts then 1 else -1

/-- The comparator as a boolean "keep a before b" relation: ES2019
requires Array.prototype.sort to be stable, and an element a stays before
b exactly when the comparator returns a non-positive value. -/
def roomLe (a b : MRoom) : Bool := decide (roomCompare a b ≤ 0)

/-- Model of getRoomList (src/main.ts lines 125-152): sorts the room list
with the comparator above using a stable sort, the behaviour
ES2019 mandates for Array.prototype.sort. -/
def getRoomList (rooms : List MRoom) : List MRoom :=
  rooms.mergeSort roomLe

/-- Timestamp of the last timeline event of a room, 0 for a room with no
events (only used on rooms that have events). -/
def lastTs (r : MRoom) : Nat :=
  match r.events.getLast? with
  | none => 0
  | some e => e.ts

theorem roomLe_iff (a b : MRoom) :
    roomLe a b = true ↔
      (a.events = [] ∨ (a.events ≠ [] ∧ b.events ≠ [] ∧ lastTs a ≤ lastTs b)) := by
  unfold roomLe roomCompare lastTs
  cases ha : a.events.getLast? with
  | none =>
    have ha' : a.events = [] := List.getLast?_eq_none_iff.mp ha
    simp [ha']
  | some aMsg =>
    have ha' : a.events ≠ [] := by
      intro h
      rw [h] at ha
      simp at ha
    cases hb : b.events.getLast? with
    | none =>
      have hb' : b.events = [] := List.getLast?_eq_none_iff.mp hb
      simp [ha', hb']
    | some bMsg =>
      have hb' : b.events ≠ [] := by
        intro h
        rw [h] at hb
        simp at hb
      simp only [ha', hb', ne_eq, not_false_iff, true_and, false_or]
      by_cases heq : aMsg.ts = bMsg.ts
      · simp [heq]
      · by_cases hgt : aMsg.ts > bMsg.ts
        · simp only [heq, if_false, hgt, if_true]
          constructor
          · intro h
            simp at h
          · intro h
            omega
        · simp only [heq, if_false, hgt, if_true]
          constructor
          · intro _
            omega
          · intro _
            decide

theorem roomLe_trans (a b c : MRoom) : roomLe a b → roomLe b c → roomLe a c := by
  intro hab hbc
  rw [roomLe_iff] at hab hbc ⊢
  rcases hab with h | ⟨ha, hb, hab⟩
  · exact Or.inl h
  · rcases hbc with h | ⟨_, hc, hbc⟩
    · exact absurd h hb
    · exact Or.inr ⟨ha, hc, le_trans hab hbc⟩

theorem roomLe_total (a b : MRoom) : roomLe a b || roomLe b a := by
  by_cases hab : roomLe a b = true
  · simp [hab]
  · suffices hba : roomLe b a = true by simp [hba]
    rw [roomLe_iff] at hab ⊢
    by_cases hb : b.events = []
    · exact Or.inl hb
    by_cases ha : a.events = []
    · exact absurd (Or.inl ha) hab
    refine Or.inr ⟨hb, ha, ?_⟩
    by_cases hle : lastTs a ≤ lastTs b
    · exact absurd (Or.inr ⟨ha, hb, hle⟩) hab
    · omega

/-- C1: every room with no events sorts before every room with events,
rooms with all-distinct last-event timestamps come out strictly
increasing by last-event timestamp, and two rooms whose last events carry
equal timestamps keep their relative input order (stability). -/
theorem getRoomList_order_spec (l : List MRoom) :
    ((∀ r ∈ l, r.events ≠ []) →
      l.Pairwise (fun a b => lastTs a ≠ lastTs b) →
      (getRoomList l).Pairwise (fun a b => lastTs a < lastTs b))
    ∧ (getRoomList l).Pairwise (fun a b => b.events = [] → a.events = [])
    ∧ (∀ a b : MRoom, a.events ≠ [] → b.events ≠ [] → lastTs a = lastTs b →
        [a, b].Sublist l → [a, b].Sublist (getRoomList l)) := by
  have hs : (getRoomList l).Pairwise (fun a b => roomLe a b = true) :=
    List.sorted_mergeSort roomLe_trans roomLe_total l
  refine ⟨?_, ?_, ?_⟩
  · intro hne hdist
    have hperm : List.Perm (getRoomList l) l := List.mergeSort_perm l roomLe
    have hsymm : Symmetric (fun a b : MRoom => lastTs a ≠ lastTs b) := by
      intro x y h
      exact Ne.symm h
    have hdist' : (getRoomList l).Pairwise (fun a b => lastTs a ≠ lastTs b) :=
      (hperm.pairwise_iff fun h => Ne.symm h).mpr hdist
    have hboth := hs.and hdist'
    refine hboth.imp_of_mem ?_
    intro a b hma hmb hab
    rcases hab with ⟨hle, hne'⟩
    rw [roomLe_iff] at hle
    rcases hle with h | ⟨_, _, hts⟩
    · exact absurd h (hne a (hperm.mem_iff.mp hma))
    · omega
  · refine hs.imp ?_
    intro a b hab
    intro hb
    rw [roomLe_iff] at hab
    rcases hab with h | ⟨_, hb', _⟩
    · exact h
    · exact absurd hb hb'
  · intro a b ha hb heq hsub
    refine List.pair_sublist_mergeSort roomLe_trans roomLe_total ?_ hsub
    rw [roomLe_iff]
    exact Or.inr ⟨ha, hb, le_of_eq heq⟩

theorem getRoomList_order_spec_witness :
    (getRoomList
        [⟨"!a", "A", [⟨"$e1", 7, MEventType.roomMessage, "x", "x", false⟩]⟩,
         ⟨"!b", "B", [⟨"$e2", 3, MEventType.roomMessage, "y", "y", false⟩]⟩,
         ⟨"!c", "C", [⟨"$e3", 5, MEventType.roomMessage, "z", "z", false⟩]⟩]).Pairwise
      (fun a b => lastTs a < lastTs b) :=
  (getRoomList_order_spec
      [⟨"!a", "A", [⟨"$e1", 7, MEventType.roomMessage, "x", "x", false⟩]⟩,
       ⟨"!b", "B", [⟨"$e2", 3, MEventType.roomMessage, "y", "y", false⟩]⟩,
       ⟨"!c", "C", [⟨"$e3", 5, MEventType.roomMessage, "z", "z", false⟩]⟩]).1
    (by decide) (by decide)

/-! ### Credential store and session start (src/main.ts lines 9-114) -/

/-- PasswordLogin exactly as the interface in src/main.ts lines 13-17. -/
structure PasswordLogin where
  baseUrl : String
  userId : String
  password : String
deriving DecidableEq

/-- TokenLogin exactly as the interface in src/main.ts lines 19-24. -/
structure TokenLogin where
  baseUrl : String
  userId : String
  accessToken : String
  deviceId : String
deriving DecidableEq

/-- The fields of the login endpoint response that getTokenLogin reads
(access_token, device_id).  The network call is external, so the response
is an oracle parameter of the model. -/
structure LoginResponse where
  access_token : String
  device_id : String
deriving DecidableEq

/-- Model of getTokenLogin (lines 55-76): performs the password login and
assembles the fresh TokenLogin from the response. -/
def getTokenLogin (passwordLogin : PasswordLogin) (response : LoginResponse) : TokenLogin :=
  { baseUrl := passwordLogin.baseUrl
    userId := passwordLogin.userId
    accessToken := response.access_token
    deviceId := response.device_id }

/-- The node-localstorage key/value store as the code uses it: setItem
binds a key (shadowing any earlier binding), getItem reads the most
recent binding. -/
abbrev Storage := List (String × String)

/-- Model of localStorage.getItem. -/
def getItem (s : Storage) (k : String) : Option String :=
  (s.find? (fun p => p.1 = k)).map (fun p => p.2)

/-- Model of localStorage.setItem. -/
def setItem (s : Storage) (k v : String) : Storage := (k, v) :: s

/-- Storage key for the access token of a user (line 82). -/
def tokenKey (userId : String) : String := "token-" ++ userId

/-- Storage key for the device id of a user (line 83). -/
def deviceKey (userId : String) : String := "device-" ++ userId

/-- Outcome of the start function: whether the password path ran, the
TokenLogin handed to startWithToken (so exactly the credentials the
session is opened with), and the storage afterwards. -/
structure StartResult where
  usedPasswordLogin : Bool
  tokenLogin : TokenLogin
  storage : Storage
deriving DecidableEq

/-- Model of start (lines 78-114): read the two entries; when either is
missing, run the password login, save token then device, and use the
fresh pair; otherwise reuse the stored pair.  startWithToken opens the
session with exactly the returned tokenLogin. -/
def start (passwordLogin : PasswordLogin) (response : LoginResponse) (storage : Storage) :
    StartResult :=
  match getItem storage (tokenKey passwordLogin.userId),
        getItem storage (deviceKey passwordLogin.userId) with
  | some accessToken, some deviceId =>
    { usedPasswordLogin := false
      tokenLogin :=
        { baseUrl := passwordLogin.baseUrl
          userId := passwordLogin.userId
          accessToken := accessToken
          deviceId := deviceId }
      storage := storage }
  | _, _ =>
    let tokenLogin := getTokenLogin passwordLogin response
    let storage1 := setItem storage (tokenKey passwordLogin.userId) tokenLogin.accessToken
    let storage2 := setItem storage1 (deviceKey passwordLogin.userId) tokenLogin.deviceId
    { usedPasswordLogin := true
      tokenLogin := tokenLogin
      storage := storage2 }

/-- The sequence of storage states along the fresh-authentication path of
start (lines 91-99): before any write, after the token setItem, and after
the device setItem.  The middle element is the state an interruption
between the two separate setItem calls would leave behind. -/
def freshPathStates (passwordLogin : PasswordLogin) (response : LoginResponse)
    (storage : Storage) : List Storage :=
  let tokenLogin := getTokenLogin passwordLogin response
  let storage1 := setItem storage (tokenKey passwordLogin.userId) tokenLogin.accessToken
  let storage2 := setItem storage1 (deviceKey passwordLogin.userId) tokenLogin.deviceId
  [storage, storage1, storage2]

theorem tokenKey_ne_deviceKey (u : String) : tokenKey u ≠ deviceKey u := by
  intro h
  have hlen := congrArg String.length h
  rw [tokenKey, deviceKey, String.length_append, String.length_append] at hlen
  have h1 : ("token-" : String).length = 6 := rfl
  have h2 : ("device-" : String).length = 7 := rfl
  omega

theorem getItem_setItem_same (s : Storage) (k v : String) :
    getItem (setItem s k v) k = some v := by
  simp [getItem, setItem]

theorem getItem_setItem_other (s : Storage) (k k' v : String) (h : k' ≠ k) :
    getItem (setItem s k' v) k = getItem s k := by
  simp [getItem, setItem, h]

/-- C2: when the storage already holds both the token entry and the device
entry for the user, start performs no password authentication and opens
the session with exactly the stored access token and the identical stored
device id (and writes nothing). -/
theorem start_fast_path (passwordLogin : PasswordLogin) (response : LoginResponse)
    (storage : Storage) (t d : String)
    (ht : getItem storage (tokenKey passwordLogin.userId) = some t)
    (hd : getItem storage (deviceKey passwordLogin.userId) = some d) :
    (start passwordLogin response storage).usedPasswordLogin = false
    ∧ (start passwordLogin response storage).tokenLogin.accessToken = t
    ∧ (start passwordLogin response storage).tokenLogin.deviceId = d
    ∧ (start passwordLogin response storage).storage = storage := by
  simp [start, ht, hd]

theorem start_fast_path_witness :
    (start ⟨"https://matrix.org", "u", "pw"⟩ ⟨"freshTok", "FRESHDEV"⟩
        [("token-u", "storedTok"), ("device-u", "STOREDDEV")]).usedPasswordLogin = false
    ∧ (start ⟨"https://matrix.org", "u", "pw"⟩ ⟨"freshTok", "FRESHDEV"⟩
        [("token-u", "storedTok"), ("device-u", "STOREDDEV")]).tokenLogin.accessToken
        = "storedTok"
    ∧ (start ⟨"https://matrix.org", "u", "pw"⟩ ⟨"freshTok", "FRESHDEV"⟩
        [("token-u", "storedTok"), ("device-u", "STOREDDEV")]).tokenLogin.deviceId
        = "STOREDDEV"
    ∧ (start ⟨"https://matrix.org", "u", "pw"⟩ ⟨"freshTok", "FRESHDEV"⟩
        [("token-u", "storedTok"), ("device-u", "STOREDDEV")]).storage
        = [("token-u", "storedTok"), ("device-u", "STOREDDEV")] :=
  start_fast_path ⟨"https://matrix.org", "u", "pw"⟩ ⟨"freshTok", "FRESHDEV"⟩
    [("token-u", "storedTok"), ("device-u", "STOREDDEV")] "storedTok" "STOREDDEV"
    (by decide) (by decide)

/-- C3 counterexample: on the fresh path for user "u" starting from empty
storage, the state after the first of the two setItem calls holds the
token entry but not the device entry, so the two credential entries are
not written as an atomic pair. -/
theorem start_writes_not_atomic :
    ¬ (∀ σ ∈ freshPathStates ⟨"https://matrix.org", "u", "pw"⟩ ⟨"tok", "DEV"⟩ [],
        (getItem σ (tokenKey "u")).isSome = (getItem σ (deviceKey "u")).isSome) := by
  decide

/-- C3 amended: the fresh path writes the token entry and then the device
entry as two separate sequential setItem calls, so an intermediate state
holding the token without the device exists; however the final state
holds both fresh values, and start run on any storage missing either
entry re-authenticates and opens the session with the fresh pair, so a
half-written stored pair is never reused to open a session. -/
theorem start_credential_pair_safety (passwordLogin : PasswordLogin)
    (response : LoginResponse) (storage σ : Storage) (response2 : LoginResponse)
    (h : getItem σ (tokenKey passwordLogin.userId) = none
         ∨ getItem σ (deviceKey passwordLogin.userId) = none) :
    getItem ((freshPathStates passwordLogin response storage).getLastD storage)
        (tokenKey passwordLogin.userId) = some response.access_token
    ∧ getItem ((freshPathStates passwordLogin response storage).getLastD storage)
        (deviceKey passwordLogin.userId) = some response.device_id
    ∧ (start passwordLogin response2 σ).usedPasswordLogin = true
    ∧ (start passwordLogin response2 σ).tokenLogin = getTokenLogin passwordLogin response2 := by
  have hlast : (freshPathStates passwordLogin response storage).getLastD storage
      = setItem (setItem storage (tokenKey passwordLogin.userId) response.access_token)
          (deviceKey passwordLogin.userId) response.device_id := rfl
  refine ⟨?_, ?_, ?_⟩
  · rw [hlast,
      getItem_setItem_other _ _ _ _ (fun hh => tokenKey_ne_deviceKey _ hh.symm),
      getItem_setItem_same]
  · rw [hlast, getItem_setItem_same]
  · rcases h with h | h
    · cases hdev : getItem σ (deviceKey passwordLogin.userId) <;>
        simp [start, h, hdev]
    · cases htok : getItem σ (tokenKey passwordLogin.userId) <;>
        simp [start, h, htok]

theorem start_credential_pair_safety_witness :
    getItem ((freshPathStates ⟨"https://matrix.org", "u", "pw"⟩ ⟨"tok", "DEV"⟩ []).getLastD [])
        (tokenKey "u") = some "tok"
    ∧ getItem ((freshPathStates ⟨"https://matrix.org", "u", "pw"⟩ ⟨"tok", "DEV"⟩ []).getLastD [])
        (deviceKey "u") = some "DEV"
    ∧ (start ⟨"https://matrix.org", "u", "pw"⟩ ⟨"tok2", "DEV2"⟩
        [("token-u", "halfTok")]).usedPasswordLogin = true
    ∧ (start ⟨"https://matrix.org", "u", "pw"⟩ ⟨"tok2", "DEV2"⟩
        [("token-u", "halfTok")]).tokenLogin
        = getTokenLogin ⟨"https://matrix.org", "u", "pw"⟩ ⟨"tok2", "DEV2"⟩ :=
  start_credential_pair_safety ⟨"https://matrix.org", "u", "pw"⟩ ⟨"tok", "DEV"⟩ []
    [("token-u", "halfTok")] ⟨"tok2", "DEV2"⟩ (Or.inr (by decide))

/-- C10: when exactly one of the two stored entries is absent, start takes
the fresh-authentication path: the password login runs, both entries are
overwritten with the fresh values, and the session is opened with the
fresh credentials, never the half-written stored pair. -/
theorem start_half_pair_refreshed (passwordLogin : PasswordLogin) (response : LoginResponse)
    (storage : Storage)
    (h : (getItem storage (tokenKey passwordLogin.userId) = none
            ∧ getItem storage (deviceKey passwordLogin.userId) ≠ none)
         ∨ (getItem storage (tokenKey passwordLogin.userId) ≠ none
            ∧ getItem storage (deviceKey passwordLogin.userId) = none)) :
    (start passwordLogin response storage).usedPasswordLogin = true
    ∧ getItem (start passwordLogin response storage).storage (tokenKey passwordLogin.userId)
        = some response.access_token
    ∧ getItem (start passwordLogin response storage).storage (deviceKey passwordLogin.userId)
        = some response.device_id
    ∧ (start passwordLogin response storage).tokenLogin
        = getTokenLogin passwordLogin response := by
  have hred : start passwordLogin response storage
      = { usedPasswordLogin := true
          tokenLogin := getTokenLogin passwordLogin response
          storage := setItem
            (setItem storage (tokenKey passwordLogin.userId) response.access_token)
            (deviceKey passwordLogin.userId) response.device_id } := by
    rcases h with ⟨h1, _⟩ | ⟨_, h2⟩
    · cases hdev : getItem storage (deviceKey passwordLogin.userId) <;>
        simp [start, h1, hdev, getTokenLogin, setItem]
    · cases htok : getItem storage (tokenKey passwordLogin.userId) <;>
        simp [start, h2, htok, getTokenLogin, setItem]
  rw [hred]
  refine ⟨rfl, ?_, ?_, rfl⟩
  · rw [getItem_setItem_other _ _ _ _ (fun hh => tokenKey_ne_deviceKey _ hh.symm),
      getItem_setItem_same]
  · rw [getItem_setItem_same]

theorem start_half_pair_refreshed_witness :
    (start ⟨"https://matrix.org", "u", "pw"⟩ ⟨"tok2", "DEV2"⟩
        [("device-u", "halfDev")]).usedPasswordLogin = true
    ∧ getItem (start ⟨"https://matrix.org", "u", "pw"⟩ ⟨"tok2", "DEV2"⟩
        [("device-u", "halfDev")]).storage (tokenKey "u") = some "tok2"
    ∧ getItem (start ⟨"https://matrix.org", "u", "pw"⟩ ⟨"tok2", "DEV2"⟩
        [("device-u", "halfDev")]).storage (deviceKey "u") = some "DEV2"
    ∧ (start ⟨"https://matrix.org", "u", "pw"⟩ ⟨"tok2", "DEV2"⟩
        [("device-u", "halfDev")]).tokenLogin
        = getTokenLogin ⟨"https://matrix.org", "u", "pw"⟩ ⟨"tok2", "DEV2"⟩ :=
  start_half_pair_refreshed ⟨"https://matrix.org", "u", "pw"⟩ ⟨"tok2", "DEV2"⟩
    [("device-u", "halfDev")] (Or.inl (by decide))

/-! ### Timeline pipeline (src/main.ts lines 197-231) -/

/-- The message filter both dispatch paths use: type m.room.message
(EventType.RoomMessage) or m.room.encrypted (EventType.RoomMessageEncrypted). -/
def isMessage (e : MEvent) : Bool :=
  decide (e.type = MEventType.roomMessage ∨ e.type = MEventType.roomMessageEncrypted)

/-- Model of the RoomEvent.Timeline handler (lines 197-215): an event that
is not a plain or encrypted message is ignored; otherwise the event is
decrypted if needed and its content is logged to the sink.  Returns the
dispatched content, none when the event is filtered out. -/
def timelineHandler (event : MEvent) : Option String :=
  if event.type ≠ MEventType.roomMessage ∧ event.type ≠ MEventType.roomMessageEncrypted then
    none
  else
    some (decryptEventIfNeeded event).getContent

/-- Model of the scrollback callback (lines 219-231): once the backfill
resolves, walk the room's merged live timeline and log the content of
every plain or encrypted message event.  No decryption call appears on
this path. -/
def scrollbackDispatch (events : List MEvent) : List String :=
  events.filterMap (fun event =>
    if event.type = MEventType.roomMessage ∨ event.type = MEventType.roomMessageEncrypted then
      some event.getContent
    else none)

theorem decryptEventIfNeeded_of_decrypted (e : MEvent)
    (h : e.type = MEventType.roomMessageEncrypted → e.decrypted = true) :
    decryptEventIfNeeded e = e := by
  unfold decryptEventIfNeeded
  split
  · rename_i henc
    cases e
    simp_all
  · rfl

/-- C4 counterexample: an encrypted, not yet decrypted message event is
dispatched by the scrollback path with its raw ciphertext content,
whereas the live handler would decrypt it first and dispatch the
plaintext — the backfill path does not dispatch in the same decrypted
fashion as the live path. -/
theorem scrollback_not_decrypted :
    scrollbackDispatch
        [⟨"$enc", 1, MEventType.roomMessageEncrypted, "CIPHERTEXT", "hello", false⟩]
      ≠ List.filterMap timelineHandler
        [⟨"$enc", 1, MEventType.roomMessageEncrypted, "CIPHERTEXT", "hello", false⟩] := by
  decide

/-- C4 amended: the scrollback path applies exactly the live handler's
message-type filter and dispatches each passing event's current content,
but performs no decryption; it therefore agrees with the live handler's
dispatch only when every encrypted event in the scanned timeline has
already been decrypted. -/
theorem scrollback_filter_agreement :
    (∀ e : MEvent, (timelineHandler e).isSome = isMessage e)
    ∧ (∀ events : List MEvent,
        scrollbackDispatch events = (events.filter isMessage).map MEvent.getContent)
    ∧ (∀ events : List MEvent,
        (∀ e ∈ events, e.type = MEventType.roomMessageEncrypted → e.decrypted = true) →
        scrollbackDispatch events = List.filterMap timelineHandler events) := by
  refine ⟨?_, ?_, ?_⟩
  · intro e
    by_cases h1 : e.type = MEventType.roomMessage
    · simp [timelineHandler, isMessage, h1]
    · by_cases h2 : e.type = MEventType.roomMessageEncrypted
      · simp [timelineHandler, isMessage, h1, h2]
      · simp [timelineHandler, isMessage, h1, h2]
  · intro events
    induction events with
    | nil => rfl
    | cons e rest ih =>
      by_cases h : e.type = MEventType.roomMessage ∨ e.type = MEventType.roomMessageEncrypted
      · simp [scrollbackDispatch, isMessage, h] at ih ⊢
        exact ih
      · simp [scrollbackDispatch, isMessage, h] at ih ⊢
        exact ih
  · intro events hdec
    induction events with
    | nil => rfl
    | cons e rest ih =>
      have he := hdec e (List.mem_cons_self e rest)
      have hrest : ∀ x ∈ rest, x.type = MEventType.roomMessageEncrypted → x.decrypted = true :=
        fun x hx => hdec x (List.mem_cons_of_mem e hx)
      have hfix : decryptEventIfNeeded e = e := decryptEventIfNeeded_of_decrypted e he
      by_cases h : e.type = MEventType.roomMessage ∨ e.type = MEventType.roomMessageEncrypted
      · have hnot : ¬ (e.type ≠ MEventType.roomMessage
            ∧ e.type ≠ MEventType.roomMessageEncrypted) := by
          rcases h with h | h <;> simp [h]
        simp [scrollbackDispatch, timelineHandler, h, hnot, hfix] at ih ⊢
        exact ih hrest
      · push_neg at h
        simp [scrollbackDispatch, timelineHandler, h.1, h.2] at ih ⊢
        exact ih hrest

theorem scrollback_filter_agreement_witness :
    scrollbackDispatch
        [⟨"$enc", 1, MEventType.roomMessageEncrypted, "CIPHERTEXT", "hello", true⟩,
         ⟨"$plain", 2, MEventType.roomMessage, "hi", "hi", false⟩]
      = List.filterMap timelineHandler
        [⟨"$enc", 1, MEventType.roomMessageEncrypted, "CIPHERTEXT", "hello", true⟩,
         ⟨"$plain", 2, MEventType.roomMessage, "hi", "hi", false⟩] :=
  scrollback_filter_agreement.2.2
    [⟨"$enc", 1, MEventType.roomMessageEncrypted, "CIPHERTEXT", "hello", true⟩,
     ⟨"$plain", 2, MEventType.roomMessage, "hi", "hi", false⟩]
    (by decide)

/-- Event identities dispatched by the Timeline handler over the sequence
of events delivered to it.  The handler fires once for every event added
to a room timeline — live or backfilled, since it never inspects its
toStartOfTimeline argument — and dispatches every message-typed one. -/
def handlerDispatchIds (delivered : List MEvent) : List String :=
  (delivered.filter isMessage).map MEvent.eventId

/-- Event identities dispatched by the scrollback callback, which rescans
the room's entire merged live timeline (the backfilled events prepended
to the live events that were already delivered through the handler). -/
def scrollbackDispatchIds (timeline : List MEvent) : List String :=
  (timeline.filter isMessage).map MEvent.eventId

/-- All dispatches of a run in which the Timeline handler saw the events
in `delivered` and the scrollback callback then scanned the merged
timeline `timeline`. -/
def runDispatchIds (delivered timeline : List MEvent) : List String :=
  handlerDispatchIds delivered ++ scrollbackDispatchIds timeline

/-- C5 counterexample: a message event delivered live and still present in
the merged timeline when the scrollback callback runs is dispatched
twice, refuting the claim that no event is dispatched to the sink more
than once. -/
theorem run_dispatch_duplicate :
    ¬ ((runDispatchIds
          [⟨"$live", 150, MEventType.roomMessage, "hey", "hey", false⟩]
          [⟨"$live", 150, MEventType.roomMessage, "hey", "hey", false⟩]).count "$live" ≤ 1) := by
  decide

/-- C5 amended: the pipeline performs no deduplication by event identity:
every message event that is both delivered through the live handler and
present in the merged timeline scanned by the scrollback callback is
dispatched at least twice. -/
theorem run_dispatch_no_dedupe (delivered timeline : List MEvent) (e : MEvent)
    (hm : isMessage e = true) (hd : e ∈ delivered) (ht : e ∈ timeline) :
    2 ≤ (runDispatchIds delivered timeline).count e.eventId := by
  have h1 : e.eventId ∈ handlerDispatchIds delivered :=
    List.mem_map_of_mem MEvent.eventId (List.mem_filter_of_mem hd hm)
  have h2 : e.eventId ∈ scrollbackDispatchIds timeline :=
    List.mem_map_of_mem MEvent.eventId (List.mem_filter_of_mem ht hm)
  have c1 : 0 < (handlerDispatchIds delivered).count e.eventId :=
    List.count_pos_iff.mpr h1
  have c2 : 0 < (scrollbackDispatchIds timeline).count e.eventId :=
    List.count_pos_iff.mpr h2
  rw [runDispatchIds, List.count_append]
  omega

theorem run_dispatch_no_dedupe_witness :
    2 ≤ (runDispatchIds
          [⟨"$live2", 150, MEventType.roomMessage, "hey", "hey", false⟩]
          [⟨"$old", 100, MEventType.roomMessage, "old", "old", false⟩,
           ⟨"$live2", 150, MEventType.roomMessage, "hey", "hey", false⟩]).count "$live2" :=
  run_dispatch_no_dedupe
    [⟨"$live2", 150, MEventType.roomMessage, "hey", "hey", false⟩]
    [⟨"$old", 100, MEventType.roomMessage, "old", "old", false⟩,
     ⟨"$live2", 150, MEventType.roomMessage, "hey", "hey", false⟩]
    ⟨"$live2", 150, MEventType.roomMessage, "hey", "hey", false⟩
    (by decide) (by decide) (by decide)

/-! ### Top-level flow: key backup, verification, exit (lines 154-231) -/

/-- Observable actions of the top-level flow after start returns. -/
inductive Action where
  | checkKeyBackup
  | requestVerification
  | callVerify
  | showSas
  | promptUser
  | callMismatch
  | awaitConfirm
  | awaitVerify
  | exitProcess (code : Nat)
  | setupPipeline
deriving DecidableEq

/-- How a run of the module-level code ends: an explicit process.exit, an
uncaught exception escaping the top-level await (node rejects the module
evaluation and the process dies with a failure status), or the process
staying alive with the pipeline installed. -/
inductive RunOutcome where
  | exited (code : Nat)
  | crashed
  | running
deriving DecidableEq

/-- The oracle inputs that select a control path through lines 160-231:
whether the own user is already verified (line 168), the SAS prompt
answer (line 183-184, accept means the input was the string y), and
whether each of the two checkKeyBackupAndEnable calls (lines 162 and 195)
throws. -/
structure RunConfig where
  alreadyVerified : Bool
  accept : Bool
  preBackupFails : Bool
  postBackupFails : Bool
deriving DecidableEq

/-- Model of the module-level flow of src/main.ts lines 160-231.  No call
is wrapped in try/catch, so a throwing checkKeyBackupAndEnable rejects
the top-level await and crashes the run.  When the user is not yet
verified, the code requests verification, calls verifier.verify() and
keeps its promise in wait, shows the SAS, and prompts.  On reject it
calls sas.mismatch() synchronously and process.exit(0) — the wait promise
is never awaited on this path.  On accept it awaits sas.confirm(), then
awaits wait, and falls through to the second checkKeyBackupAndEnable and
the pipeline setup (the Timeline handler registration and the scrollback
call, lines 197-231). -/
def mainRun (c : RunConfig) : List Action × RunOutcome :=
  if c.preBackupFails then
    ([Action.checkKeyBackup], RunOutcome.crashed)
  else if c.alreadyVerified then
    if c.postBackupFails then
      ([Action.checkKeyBackup, Action.checkKeyBackup], RunOutcome.crashed)
    else
      ([Action.checkKeyBackup, Action.checkKeyBackup, Action.setupPipeline],
       RunOutcome.running)
  else if c.accept then
    if c.postBackupFails then
      ([Action.checkKeyBackup, Action.requestVerification, Action.callVerify,
        Action.showSas, Action.promptUser, Action.awaitConfirm, Action.awaitVerify,
        Action.checkKeyBackup],
       RunOutcome.crashed)
    else
      ([Action.checkKeyBackup, Action.requestVerification, Action.callVerify,
        Action.showSas, Action.promptUser, Action.awaitConfirm, Action.awaitVerify,
        Action.checkKeyBackup, Action.setupPipeline],
       RunOutcome.running)
  else
    ([Action.checkKeyBackup, Action.requestVerification, Action.callVerify,
      Action.showSas, Action.promptUser, Action.callMismatch, Action.exitProcess 0],
     RunOutcome.exited 0)

/-- C6: in every run that reaches the SAS prompt and in which the user
rejects the comparison, the process terminates via process.exit(0) — a
success status — without the confirm call ever running and with the
key-backup enable step having run exactly once. -/
theorem reject_run_clean_exit (c : RunConfig)
    (hprompt : Action.promptUser ∈ (mainRun c).1)
    (hreject : c.accept = false) :
    (mainRun c).2 = RunOutcome.exited 0
    ∧ Action.awaitConfirm ∉ (mainRun c).1
    ∧ (mainRun c).1.count Action.checkKeyBackup = 1 := by
  rcases c with ⟨av, acc, pre, post⟩
  cases acc with
  | false =>
    cases av <;> cases pre <;> cases post <;> revert hprompt <;> decide
  | true =>
    simp at hreject

theorem reject_run_clean_exit_witness :
    (mainRun ⟨false, false, false, false⟩).2 = RunOutcome.exited 0
    ∧ Action.awaitConfirm ∉ (mainRun ⟨false, false, false, false⟩).1
    ∧ (mainRun ⟨false, false, false, false⟩).1.count Action.checkKeyBackup = 1 :=
  reject_run_clean_exit ⟨false, false, false, false⟩ (by decide) rfl

/-- C7 counterexample: in the reject run the trace reaches process.exit
while the exchange-step promise (wait, from verifier.verify()) is never
awaited, refuting the claim that both the exchange-step suspension and
the chosen terminal call are awaited to completion before the process
proceeds or exits. -/
theorem reject_run_verify_not_awaited :
    Action.exitProcess 0 ∈ (mainRun ⟨false, false, false, false⟩).1
    ∧ Action.awaitVerify ∉ (mainRun ⟨false, false, false, false⟩).1 := by
  decide

/-- C7 amended: on the accept path the confirm call and then the
exchange-step promise are both awaited before the post-verification
key-backup call and the pipeline setup; on the reject path mismatch is
invoked synchronously and the process exits with status 0 without ever
awaiting the exchange-step promise. -/
theorem verification_await_order :
    ∀ postBackupFails : Bool,
      [Action.callVerify, Action.awaitConfirm, Action.awaitVerify,
        Action.checkKeyBackup].Sublist (mainRun ⟨false, true, false, postBackupFails⟩).1
      ∧ Action.callMismatch ∈ (mainRun ⟨false, false, false, postBackupFails⟩).1
      ∧ Action.awaitVerify ∉ (mainRun ⟨false, false, false, postBackupFails⟩).1
      ∧ (mainRun ⟨false, false, false, postBackupFails⟩).2 = RunOutcome.exited 0 := by
  decide

/-- C8 counterexample: when the first checkKeyBackupAndEnable call throws,
the run crashes and the pipeline is never installed — the failure is not
caught, logged, or survived, refuting the claim that a transient
key-backup activation failure does not fail the overall process. -/
theorem backup_failure_crashes :
    (mainRun ⟨true, true, true, false⟩).2 = RunOutcome.crashed
    ∧ Action.setupPipeline ∉ (mainRun ⟨true, true, true, false⟩).1 := by
  decide

/-- C8 amended: a failure of either checkKeyBackupAndEnable call (the one
before verification, or the one after it on any path that reaches it) is
not caught anywhere: it propagates out of the top-level await and aborts
the process before the timeline pipeline is installed. -/
theorem backup_failure_propagates (c : RunConfig)
    (h : c.preBackupFails = true
         ∨ (c.preBackupFails = false ∧ c.postBackupFails = true
            ∧ (c.alreadyVerified = true ∨ c.accept = true))) :
    (mainRun c).2 = RunOutcome.crashed
    ∧ Action.setupPipeline ∉ (mainRun c).1 := by
  rcases c with ⟨av, acc, pre, post⟩
  cases av <;> cases acc <;> cases pre <;> cases post <;> revert h <;> decide

theorem backup_failure_propagates_witness :
    (mainRun ⟨false, true, false, true⟩).2 = RunOutcome.crashed
    ∧ Action.setupPipeline ∉ (mainRun ⟨false, true, false, true⟩).1 :=
  backup_failure_propagates ⟨false, true, false, true⟩
    (Or.inr ⟨rfl, rfl, Or.inr rfl⟩)

/-! ### Room lookup by name (lines 217-219) -/

/-- Faults the post-sync part of the program can end with.  syncFailed is
the explicit Error thrown in startWithToken (line 46).  roomNotFound is
the RoomNotFound configuration error of the specification's taxonomy; it
appears nowhere in the source.  nullRoomFault is the unclassified runtime
fault of handing the undefined produced by the failed find over to
client.scrollback. -/
inductive ProgramFault where
  | syncFailed
  | roomNotFound
  | nullRoomFault
deriving DecidableEq

/-- Model of lines 217-219: store.getRooms().find(r => r.name === "Emil"),
whose non-null assertion is erased at runtime, followed by
client.scrollback(emilroom, 100).  When no room is named "Emil" the
undefined value reaches scrollback and the call dies with an unclassified
runtime fault rather than a classified error. -/
def emilRoomStep (rooms : List MRoom) : Except ProgramFault MRoom :=
  match rooms.find? (fun r => r.name == "Emil") with
  | some r => Except.ok r
  | none => Except.error ProgramFault.nullRoomFault

/-- C9 counterexample: with no room named "Emil" present, the program
fails with the unclassified null-room runtime fault; it does not report
the RoomNotFound configuration error the claim describes. -/
theorem emilRoom_missing_not_classified :
    emilRoomStep [] = Except.error ProgramFault.nullRoomFault
    ∧ emilRoomStep [] ≠ Except.error ProgramFault.roomNotFound := by
  refine ⟨rfl, ?_⟩
  intro h
  simp [emilRoomStep] at h

/-- C9 amended: whenever no room is named "Emil", the lookup leaves
undefined flowing into scrollback and the run dies with the unclassified
null-room fault; no input whatsoever makes the program report a
RoomNotFound configuration error. -/
theorem emilRoom_missing_faults (rooms : List MRoom)
    (h : ∀ r ∈ rooms, r.name ≠ "Emil") :
    emilRoomStep rooms = Except.error ProgramFault.nullRoomFault
    ∧ ∀ rooms2 : List MRoom, emilRoomStep rooms2 ≠ Except.error ProgramFault.roomNotFound := by
  constructor
  · have hnone : rooms.find? (fun r => r.name == "Emil") = none := by
      rw [List.find?_eq_none]
      intro r hr
      simpa using h r hr
    rw [emilRoomStep, hnone]
  · intro rooms2
    rw [emilRoomStep]
    cases rooms2.find? (fun r => r.name == "Emil") <;> simp

theorem emilRoom_missing_faults_witness :
    emilRoomStep [⟨"!x", "Other", []⟩] = Except.error ProgramFault.nullRoomFault
    ∧ ∀ rooms2 : List MRoom,
        emilRoomStep rooms2 ≠ Except.error ProgramFault.roomNotFound :=
  emilRoom_missing_faults [⟨"!x", "Other", []⟩] (by decide)

end Emilbot
